import Mathlib

/-!
Verification development for the sales-insights pipeline.

This file gives a shallow embedding of the two core modules of the
repository — `src/processamento/limpeza.py` (the record cleaner) and
`src/processamento/estatisticas.py` (the statistics engine) — and proves
or refutes the specification claims about them.

Modelling conventions:
* pandas DataFrames become lists of typed records plus an explicit list of
  column names (`cols`) used only by the schema checks;
* Python floats become exact rationals (ℚ); `round(x, 2)` and pandas
  `.round(2)` become `round2`, round-half-to-even on rationals;
* `datetime64` dates become absolute day numbers (ℤ, days since the epoch
  1970-01-01); calendar fields are recovered with the standard civil
  calendar algorithms (`civilFromDays`, `daysFromCivil`);
* missing values (NaN/NaT) become `Option`; raw cells that will be
  coerced by `pd.to_numeric`/`pd.to_datetime` with `errors="coerce"` are
  embedded as `Cell`: either missing, unparseable, or a parsed value;
* Python exceptions become `Except` error values;
* `str.lower` becomes `lowerStr` (ASCII case folding, which agrees with
  Python on the ASCII product names used throughout).
-/

namespace SalesPipeline

/-! ## Generic helpers: sums, rounding, sorting, substring search -/

/-- Sum of a list of rationals, as pandas `Series.sum()` over a revenue
column (left fold from 0). -/
def sumQ (l : List ℚ) : ℚ := l.foldl (· + ·) 0

/-- Floor of a rational number, computed on the numerator and denominator. -/
def floorQ (q : ℚ) : ℤ := Int.fdiv q.num (q.den : ℤ)

/-- Round-half-to-even to the nearest integer, the rounding used by Python
`round` and numpy/pandas rounding, idealised over exact rationals. -/
def roundHalfEven (q : ℚ) : ℤ :=
  let f := floorQ q
  let r := q - (f : ℚ)
  if r < 1/2 then f
  else if 1/2 < r then f + 1
  else if f % 2 = 0 then f else f + 1

/-- Model of Python `round(x, 2)` (and pandas `.round(2)`): round
half-to-even at two decimal places. This is `_fmt` in
`estatisticas.py` and the `round(..., 2)` calls in `limpeza.py`. -/
def round2 (q : ℚ) : ℚ := (roundHalfEven (q * 100) : ℚ) / 100

/-- Insert an element into a list so that it lands before the first element
`b` with `le a b`. -/
def insertLe (le : α → α → Bool) (a : α) : List α → List α
  | [] => [a]
  | b :: bs => if le a b then a :: b :: bs else b :: insertLe le a bs

/-- Insertion sort by a boolean comparison; models the deterministic
sorting performed by pandas `sort_values` / sorted `groupby` keys. -/
def isort (le : α → α → Bool) : List α → List α
  | [] => []
  | b :: bs => insertLe le b (isort le bs)

theorem mem_insertLe (le : α → α → Bool) (a x : α) :
    ∀ l : List α, (x ∈ insertLe le a l ↔ x = a ∨ x ∈ l)
  | [] => by simp [insertLe]
  | b :: bs => by
    simp only [insertLe]
    split
    · simp
    · simp [mem_insertLe le a x bs]
      tauto

theorem mem_isort (le : α → α → Bool) (x : α) :
    ∀ l : List α, (x ∈ isort le l ↔ x ∈ l)
  | [] => Iff.rfl
  | b :: bs => by
    simp only [isort, mem_insertLe, List.mem_cons, mem_isort le x bs]

theorem pairwise_insertLe (le : α → α → Bool)
    (htot : ∀ a b, le a b = true ∨ le b a = true)
    (htrans : ∀ a b c, le a b = true → le b c = true → le a c = true) (a : α) :
    ∀ {l : List α}, l.Pairwise (fun x y => le x y = true) →
      (insertLe le a l).Pairwise (fun x y => le x y = true)
  | [], _ => by simp [insertLe]
  | b :: bs, h => by
    rw [List.pairwise_cons] at h
    by_cases hab : le a b = true
    · rw [insertLe, if_pos hab]
      refine List.pairwise_cons.mpr ⟨?_, List.pairwise_cons.mpr h⟩
      intro x hx
      rcases List.mem_cons.mp hx with rfl | hx
      · exact hab
      · exact htrans a b x hab (h.1 x hx)
    · rw [insertLe, if_neg hab]
      refine List.pairwise_cons.mpr ⟨?_, pairwise_insertLe le htot htrans a h.2⟩
      intro x hx
      rcases (mem_insertLe le a x bs).mp hx with rfl | hx
      · exact (htot x b).resolve_left hab
      · exact h.1 x hx

theorem pairwise_isort (le : α → α → Bool)
    (htot : ∀ a b, le a b = true ∨ le b a = true)
    (htrans : ∀ a b c, le a b = true → le b c = true → le a c = true) :
    ∀ l : List α, (isort le l).Pairwise (fun x y => le x y = true)
  | [] => List.Pairwise.nil
  | b :: bs => pairwise_insertLe le htot htrans b (pairwise_isort le htot htrans bs)

/-- Tests whether the first character list is a prefix of the second. -/
def prefOf : List Char → List Char → Bool
  | [], _ => true
  | _ :: _, [] => false
  | a :: as, b :: bs => a == b && prefOf as bs

/-- Tests whether `needle` occurs as a contiguous run inside `hay`; this is
the Python `needle in hay` test on strings. -/
def containsSub (needle : List Char) : List Char → Bool
  | [] => needle.isEmpty
  | b :: bs => prefOf needle (b :: bs) || containsSub needle bs

/-- Python substring membership `needle in hay`. -/
def containsStr (needle hay : String) : Bool := containsSub needle.data hay.data

theorem prefOf_of_append (xs ys : List Char) :
    ∀ l : List Char, prefOf (xs ++ ys) l = true → prefOf xs l = true := by
  induction xs with
  | nil => intro l _; rfl
  | cons a as ih =>
    intro l h
    cases l with
    | nil => exact absurd h (by simp [prefOf])
    | cons b bs =>
      simp only [List.cons_append, prefOf, Bool.and_eq_true] at h ⊢
      exact ⟨h.1, ih bs h.2⟩

theorem containsSub_of_append (xs ys : List Char) :
    ∀ l : List Char, containsSub (xs ++ ys) l = true → containsSub xs l = true := by
  intro l
  induction l with
  | nil =>
    simp only [containsSub, List.isEmpty_iff, List.append_eq_nil]
    rintro ⟨rfl, rfl⟩
    rfl
  | cons b bs ih =>
    simp only [containsSub, Bool.or_eq_true]
    rintro (h | h)
    · exact Or.inl (prefOf_of_append xs ys _ h)
    · exact Or.inr (ih h)

/-- ASCII lower-casing of one character; agrees with Python `str.lower`
on ASCII text (every product keyword in the margin table except the
accented variant is ASCII). -/
def lowerChar (c : Char) : Char :=
  if 'A' ≤ c ∧ c ≤ 'Z' then Char.ofNat (c.toNat + 32) else c

/-- Model of Python `str.lower()` (ASCII case folding). -/
def lowerStr (s : String) : String := ⟨s.data.map lowerChar⟩

/-! ## Calendar arithmetic

Dates are embedded as absolute day numbers (days since 1970-01-01).
`civilFromDays` and `daysFromCivil` are the standard proleptic-Gregorian
conversions, used to model the `datetime64` accessors `.dt.year`,
`.dt.month`, `.dt.day`, `.dt.dayofweek`, `.dt.isocalendar().week` and
`strftime` of the source. -/

/-- Convert an absolute day number into a civil (year, month, day) triple. -/
def civilFromDays (z0 : ℤ) : ℤ × ℤ × ℤ :=
  let z := z0 + 719468
  let era := Int.fdiv z 146097
  let doe := z - era * 146097
  let yoe := Int.fdiv (doe - Int.fdiv doe 1460 + Int.fdiv doe 36524 - Int.fdiv doe 146096) 365
  let y := yoe + era * 400
  let doy := doe - (365 * yoe + Int.fdiv yoe 4 - Int.fdiv yoe 100)
  let mp := Int.fdiv (5 * doy + 2) 153
  let d := doy - Int.fdiv (153 * mp + 2) 5 + 1
  let m := mp + (if mp < 10 then 3 else -9)
  (y + (if m ≤ 2 then 1 else 0), m, d)

/-- Convert a civil (year, month, day) triple into an absolute day number. -/
def daysFromCivil (y0 m d : ℤ) : ℤ :=
  let y := y0 - (if m ≤ 2 then 1 else 0)
  let era := Int.fdiv y 400
  let yoe := y - era * 400
  let mp := if 2 < m then m - 3 else m + 9
  let doy := Int.fdiv (153 * mp + 2) 5 + d - 1
  let doe := yoe * 365 + Int.fdiv yoe 4 - Int.fdiv yoe 100 + doy
  era * 146097 + doe - 719468

/-- Weekday of an absolute day number, Monday = 0 .. Sunday = 6 (pandas
`.dt.dayofweek`); day 0 (1970-01-01) was a Thursday. -/
def weekdayOf (z : ℤ) : ℤ := (z + 3) % 7

/-- ISO week number of an absolute day number (pandas
`.dt.isocalendar().week`): the week number of the Thursday of the date's
ISO week, counted inside that Thursday's year. -/
def isoWeekOf (z : ℤ) : ℤ :=
  let th := z + (3 - weekdayOf z)
  let y := (civilFromDays th).1
  Int.fdiv (th - daysFromCivil y 1 1) 7 + 1

/-- Zero-padded two-digit rendering of a calendar component. -/
def pad2 (n : ℤ) : String := if n < 10 then "0" ++ toString n else toString n

/-- Model of `strftime("%d/%m/%Y")` on an absolute day number. -/
def fmtDDMMYYYY (z : ℤ) : String :=
  let c := civilFromDays z
  pad2 c.2.2 ++ "/" ++ pad2 c.2.1 ++ "/" ++ toString c.1

/-- Model of the `f-string` month key `f"{ano}-{mes:02d}"`. -/
def fmtMesKey (ano mes : ℤ) : String := toString ano ++ "-" ++ pad2 mes

/-- Truncation toward zero, the conversion performed by Python `int(...)`
on a float and by pandas `astype(int)`. -/
def truncQ (q : ℚ) : ℤ := if 0 ≤ q then floorQ q else -(floorQ (-q))

/-- Character-code comparison of character lists. -/
def charsLe : List Char → List Char → Bool
  | [], _ => true
  | _ :: _, [] => false
  | a :: as, b :: bs => if a < b then true else if b < a then false else charsLe as bs

/-- Code-point order on strings, the order pandas uses on text group keys. -/
def strLe (a b : String) : Bool := charsLe a.data b.data

/-- Descending-by-value comparison used to model
`sort_values(ascending=False)` on a keyed revenue series. -/
def byReceitaDesc {α : Type} (a b : α × ℚ) : Bool := decide (b.2 ≤ a.2)

/-- Running cumulative sums starting from `acc` (pandas `cumsum`). -/
def cumsumFrom (acc : ℚ) : List ℚ → List ℚ
  | [] => []
  | x :: xs => (acc + x) :: cumsumFrom (acc + x) xs

/-- Pandas `Series.cumsum()`. -/
def cumsum (l : List ℚ) : List ℚ := cumsumFrom 0 l

/-- Minimum of a list of integers, `none` when empty (pandas `.min()`
giving NaT on an empty date column). -/
def minZ? (l : List ℤ) : Option ℤ :=
  l.foldl (fun acc x => match acc with | none => some x | some m => some (min m x)) none

/-- Maximum of a list of integers, `none` when empty. -/
def maxZ? (l : List ℤ) : Option ℤ :=
  l.foldl (fun acc x => match acc with | none => some x | some m => some (max m x)) none

/-! ## Statistics engine: `src/processamento/estatisticas.py` -/

/-- One row of the cleaned DataFrame handed to `EstatisticasVendas`
(columns `data`, `produto`, `valor`, `quantidade`, `receita`, `ano`,
`mes`, `dia_semana`); `data` is `none` for a NaT left by
`pd.to_datetime(..., errors="coerce")`. -/
structure RowIn where
  data : Option ℤ
  produto : String
  valor : ℚ
  quantidade : ℚ
  receita : ℚ
  ano : ℤ
  mes : ℤ
  dia_semana : ℤ
deriving DecidableEq, Repr

/-- A row once `_validar_dataframe` has dropped the NaT dates. -/
structure Row where
  data : ℤ
  produto : String
  valor : ℚ
  quantidade : ℚ
  receita : ℚ
  ano : ℤ
  mes : ℤ
  dia_semana : ℤ
deriving DecidableEq, Repr

/-- The DataFrame passed to `calcular`: its column-name list (consulted by
the schema check) and its typed rows. -/
structure DataFrame where
  cols : List String
  rows : List RowIn
deriving DecidableEq, Repr

/-- The two `ValueError`s of the statistics engine: the empty-DataFrame
rejection in `calcular` and the missing-columns rejection in
`_validar_dataframe`, which the spec names `EmptyDatasetError` and
`SchemaError`. -/
inductive CalcErr where
  | emptyDataset
  | schemaError (faltando : List String)
deriving DecidableEq, Repr

/-- The required columns of `_validar_dataframe` (`colunas_necessarias`). -/
def colunas_necessarias : List String :=
  ["data", "produto", "valor", "quantidade", "receita", "ano", "mes", "dia_semana"]

/-- The rows surviving `_validar_dataframe`: the date column re-coerced
and the NaT rows dropped (`df = df[df["data"].notna()]`), performed on the
internal copy. -/
def linhasValidas (df : DataFrame) : List Row :=
  df.rows.filterMap (fun r => r.data.map (fun d =>
    ⟨d, r.produto, r.valor, r.quantidade, r.receita, r.ano, r.mes, r.dia_semana⟩))

/-- Model of `_validar_dataframe`: raises on missing required columns,
otherwise works on a copy (`df = df.copy()`), re-coercing `data` and
dropping rows whose date is NaT; the rows of that internal copy are
returned, the caller's frame is untouched. -/
def validar_dataframe (df : DataFrame) : Except CalcErr (List Row) :=
  let faltando := colunas_necessarias.filter (fun c => ! df.cols.contains c)
  if faltando.isEmpty then .ok (linhasValidas df)
  else .error (.schemaError faltando)

/-- The ordered margin table `MARGENS_CATEGORIA`; the insertion order of
the Python dict drives the first-match lookup in `_margem_produto`. -/
def MARGENS_CATEGORIA : List (String × ℚ) :=
  [("notebook", 10/100), ("monitor", 15/100), ("ssd", 25/100), ("hd", 20/100),
   ("memória", 30/100), ("memoria", 30/100), ("ram", 30/100), ("mouse", 50/100),
   ("teclado", 45/100), ("headset", 40/100), ("fone", 40/100), ("webcam", 35/100),
   ("cadeira", 30/100), ("mousepad", 60/100)]

/-- The fallback margin `MARGEM_PADRAO`. -/
def MARGEM_PADRAO : ℚ := 25/100

/-- First-match scan of the margin table, as the `for` loop of
`_margem_produto`. -/
def lookupMargem : List (String × ℚ) → String → ℚ
  | [], _ => MARGEM_PADRAO
  | (palavra, margem) :: rest, nome =>
    if containsStr palavra nome then margem else lookupMargem rest nome

/-- Model of `_margem_produto`: lower-case the product name, then return
the margin of the first table keyword occurring in it, defaulting to
`MARGEM_PADRAO`. -/
def margem_produto (nome_produto : String) : ℚ :=
  lookupMargem MARGENS_CATEGORIA (lowerStr nome_produto)

/-- Sum of the whole revenue column, `df["receita"].sum()`. -/
def receitaTotal (rows : List Row) : ℚ := sumQ (rows.map Row.receita)

/-- Revenue summed over the rows of one product. -/
def receitaDoProduto (rows : List Row) (p : String) : ℚ :=
  sumQ ((rows.filter (fun r => r.produto == p)).map Row.receita)

/-- Distinct products in ascending group-key order (pandas `groupby`
sorts its keys). -/
def produtosOrdenados (rows : List Row) : List String :=
  isort strLe (rows.map Row.produto).dedup

/-- Model of `receita_por_produto`: per-product sums sorted by revenue
descending. -/
def receita_por_produto (rows : List Row) : List (String × ℚ) :=
  isort byReceitaDesc ((produtosOrdenados rows).map (fun p => (p, receitaDoProduto rows p)))

/-- Model of the `top_produtos` list: first ten ranked products as
(name, rounded revenue) pairs. -/
def topProdutosCalc (rows : List Row) : List (String × ℚ) :=
  ((receita_por_produto rows).take 10).map (fun pr => (pr.1, round2 pr.2))

/-- Model of the nested `classifica_abc` helper of `calcular`. -/
def classifica_abc (valor_acumulado : ℚ) : String :=
  if valor_acumulado ≤ 80 then "A" else if valor_acumulado ≤ 95 then "B" else "C"

/-- The `participacao_acumulada` column: cumulative sums of the per-item
shares `receita / receita_total * 100` over the ranked products (the whole
column is the scalar 0 when the total is not positive). -/
def participacaoAcumulada (rows : List Row) : List ℚ :=
  let total := receitaTotal rows
  cumsum ((receita_por_produto rows).map
    (fun pr => if 0 < total then pr.2 / total * 100 else 0))

/-- Model of the `curva_abc` list: the first ten ranked products as
(name, rounded revenue, ABC class from the cumulative share). -/
def curvaAbcCalc (rows : List Row) : List (String × ℚ × String) :=
  (((receita_por_produto rows).zip (participacaoAcumulada rows)).map
    (fun pc => (pc.1.1, round2 pc.1.2, classifica_abc pc.2))).take 10

/-- The weekday abbreviation table `mapa_dias` (Monday first). -/
def mapa_dias : List String := ["Seg", "Ter", "Qua", "Qui", "Sex", "Sáb", "Dom"]

/-- Revenue summed over rows with the given weekday index. -/
def receitaDoDia (rows : List Row) (i : ℤ) : ℚ :=
  sumQ ((rows.filter (fun r => r.dia_semana == i)).map Row.receita)

/-- The reindexed weekday series
`groupby("dia_semana")["receita"].sum().reindex(range(7), fill_value=0)`:
seven sums in order Monday..Sunday, absent weekdays contributing 0. -/
def receitaPorDiaSemanaCalc (rows : List Row) : List ℚ :=
  (List.range 7).map (fun i => receitaDoDia rows (i : ℤ))

/-- Position of the first maximal element in a list, scanning left to
right with a running best (pandas `idxmax` over index 0..n-1). -/
def idxmaxAux : List ℚ → ℕ → ℕ → ℚ → ℕ
  | [], _, best, _ => best
  | x :: xs, i, best, bv => if bv < x then idxmaxAux xs (i + 1) i x else idxmaxAux xs (i + 1) best bv

/-- Pandas `Series.idxmax` on a series indexed 0..n-1 (first maximum). -/
def idxmaxL : List ℚ → ℕ
  | [] => 0
  | x :: xs => idxmaxAux xs 1 0 x

/-- Model of `melhor_dia_nome = mapa_dias[melhor_dia_idx]`. -/
def melhorDiaCalc (rows : List Row) : String :=
  mapa_dias.getD (idxmaxL (receitaPorDiaSemanaCalc rows)) ""

/-- Model of the `receita_dia_semana` dictionary: weekday abbreviation to
rounded weekday revenue, in order Monday..Sunday. -/
def receitaDiaSemanaCalc (rows : List Row) : List (String × ℚ) :=
  (List.range 7).map (fun i => (mapa_dias.getD i "", round2 (receitaDoDia rows (i : ℤ))))

/-- Ascending order on the (ano, mes) group keys. -/
def mesLe (a b : ℤ × ℤ) : Bool :=
  if a.1 < b.1 then true else if b.1 < a.1 then false else decide (a.2 ≤ b.2)

/-- Distinct (ano, mes) keys in ascending order, as produced by
`groupby(["ano", "mes"]).sum().sort_index()`. -/
def mesesOrdenados (rows : List Row) : List (ℤ × ℤ) :=
  isort mesLe (rows.map (fun r => (r.ano, r.mes))).dedup

/-- Revenue summed over one (ano, mes) group. -/
def receitaDoMes (rows : List Row) (am : ℤ × ℤ) : ℚ :=
  sumQ ((rows.filter (fun r => r.ano == am.1 && r.mes == am.2)).map Row.receita)

/-- Model of `receita_mensal_group`: the sorted month keys paired with
their revenue sums. -/
def receitaMensalGroup (rows : List Row) : List ((ℤ × ℤ) × ℚ) :=
  (mesesOrdenados rows).map (fun am => (am, receitaDoMes rows am))

/-- Model of the `receita_mensal` dictionary keyed by `"YYYY-MM"`. -/
def receitaMensalCalc (rows : List Row) : List (String × ℚ) :=
  (receitaMensalGroup rows).map (fun g => (fmtMesKey g.1.1 g.1.2, round2 g.2))

/-- Model of the `crescimento` computation: percentage change from the
first to the last month present, 0 when fewer than two months or when the
first month's revenue is not positive. -/
def crescimentoCalc (rows : List Row) : ℚ :=
  let g := receitaMensalGroup rows
  if 2 ≤ g.length then
    let primeiro := (g.getD 0 ((0, 0), 0)).2
    let ultimo := (g.getLast?.getD ((0, 0), 0)).2
    if 0 < primeiro then (ultimo - primeiro) / primeiro * 100 else 0
  else 0

/-- Scan for the key of the first maximal value (pandas `idxmax`). -/
def argmaxRest : List ((ℤ × ℤ) × ℚ) → (ℤ × ℤ) → ℚ → (ℤ × ℤ)
  | [], best, _ => best
  | g :: gs, best, bv => if bv < g.2 then argmaxRest gs g.1 g.2 else argmaxRest gs best bv

/-- Scan for the key of the first minimal value (pandas `idxmin`). -/
def argminRest : List ((ℤ × ℤ) × ℚ) → (ℤ × ℤ) → ℚ → (ℤ × ℤ)
  | [], best, _ => best
  | g :: gs, best, bv => if g.2 < bv then argminRest gs g.1 g.2 else argminRest gs best bv

/-- Model of `melhor_mes`: `"YYYY-MM"` of the maximal monthly revenue,
`None` when no months exist. -/
def melhorMesCalc (rows : List Row) : Option String :=
  match receitaMensalGroup rows with
  | [] => none
  | g :: gs => some (fmtMesKey (argmaxRest gs g.1 g.2).1 (argmaxRest gs g.1 g.2).2)

/-- Model of `pior_mes`: `"YYYY-MM"` of the minimal monthly revenue. -/
def piorMesCalc (rows : List Row) : Option String :=
  match receitaMensalGroup rows with
  | [] => none
  | g :: gs => some (fmtMesKey (argminRest gs g.1 g.2).1 (argminRest gs g.1 g.2).2)

/-- Distinct dates in ascending group-key order. -/
def datasOrdenadas (rows : List Row) : List ℤ :=
  isort (fun a b => decide (a ≤ b)) (rows.map Row.data).dedup

/-- Revenue summed over one calendar day. -/
def receitaDaData (rows : List Row) (d : ℤ) : ℚ :=
  sumQ ((rows.filter (fun r => r.data == d)).map Row.receita)

/-- Model of `receita_por_dia = df.groupby("data")["receita"].sum()`. -/
def receitaPorDia (rows : List Row) : List (ℤ × ℚ) :=
  (datasOrdenadas rows).map (fun d => (d, receitaDaData rows d))

/-- Mean of the per-day sums (`receita_por_dia.mean()`), 0 with no days. -/
def receitaMediaDiariaCalc (rows : List Row) : ℚ :=
  let g := receitaPorDia rows
  if g.isEmpty then 0 else sumQ (g.map Prod.snd) / (g.length : ℚ)

/-- Model of `top_dias`: ten best days by revenue, formatted DD/MM/YYYY. -/
def topDiasCalc (rows : List Row) : List (String × ℚ) :=
  ((isort byReceitaDesc (receitaPorDia rows)).take 10).map
    (fun g => (fmtDDMMYYYY g.1, round2 g.2))

/-- Model of `dias_analisados = (data_fim - data_inicio).days + 1`, 0 on
an empty frame. -/
def diasAnalisados (rows : List Row) : ℤ :=
  match minZ? (rows.map Row.data), maxZ? (rows.map Row.data) with
  | some mn, some mx => mx - mn + 1
  | _, _ => 0

/-- Model of `dias_com_venda = df["data"].nunique()`. -/
def diasComVenda (rows : List Row) : ℤ := ((rows.map Row.data).dedup.length : ℤ)

/-- The flat metrics dictionary built at the end of `calcular`; one field
per key, in the dictionary's insertion order. -/
structure Resultados where
  gmv : ℚ
  lucro_estimado : ℚ
  margem_media_percent : ℚ
  total_transacoes : ℤ
  total_unidades : ℤ
  ticket_medio : ℚ
  receita_media_diaria : ℚ
  data_inicio : Option String
  data_fim : Option String
  dias_analisados : ℤ
  top_produtos : List (String × ℚ)
  curva_abc : List (String × ℚ × String)
  receita_dia_semana : List (String × ℚ)
  melhor_dia_semana : String
  receita_mensal : List (String × ℚ)
  crescimento_percentual : ℚ
  melhor_mes : Option String
  pior_mes : Option String
  top_dias : List (String × ℚ)
  dias_com_venda : ℤ
  dias_periodo : ℤ
  densidade_temporal_percent : ℚ
deriving DecidableEq, Repr

/-- The body of `calcular` after validation: every metric of the flat
dictionary, computed from the validated rows. -/
def calcularNucleo (rows : List Row) : Resultados :=
  let receita_total := receitaTotal rows
  let total_transacoes := (rows.length : ℤ)
  let lucro_estimado := sumQ (rows.map (fun r => r.receita * margem_produto r.produto))
  let dias := diasAnalisados rows
  { gmv := round2 receita_total
    lucro_estimado := round2 lucro_estimado
    margem_media_percent :=
      round2 ((if 0 < receita_total then lucro_estimado / receita_total else 0) * 100)
    total_transacoes := total_transacoes
    total_unidades := truncQ (sumQ (rows.map Row.quantidade))
    ticket_medio :=
      round2 (if 0 < total_transacoes then receita_total / (total_transacoes : ℚ) else 0)
    receita_media_diaria := round2 (receitaMediaDiariaCalc rows)
    data_inicio := (minZ? (rows.map Row.data)).map fmtDDMMYYYY
    data_fim := (maxZ? (rows.map Row.data)).map fmtDDMMYYYY
    dias_analisados := dias
    top_produtos := topProdutosCalc rows
    curva_abc := curvaAbcCalc rows
    receita_dia_semana := receitaDiaSemanaCalc rows
    melhor_dia_semana := melhorDiaCalc rows
    receita_mensal := receitaMensalCalc rows
    crescimento_percentual := round2 (crescimentoCalc rows)
    melhor_mes := melhorMesCalc rows
    pior_mes := piorMesCalc rows
    top_dias := topDiasCalc rows
    dias_com_venda := diasComVenda rows
    dias_periodo := dias
    densidade_temporal_percent :=
      round2 (if 0 < dias then (diasComVenda rows : ℚ) / (dias : ℚ) * 100 else 0) }

/-- Model of `EstatisticasVendas.calcular`: reject an empty frame, then
validate and compute the metrics dictionary. -/
def calcular (df : DataFrame) : Except CalcErr Resultados :=
  if df.rows.isEmpty then .error .emptyDataset
  else (validar_dataframe df).map calcularNucleo

/-- Model of the method call including its effect on `self.resultados`:
the prior dictionary (`none` right after `__init__`) is never read; on
success it is replaced wholesale by the fresh result. -/
def calcularSt (st : Option Resultados) (df : DataFrame) :
    Except CalcErr Resultados × Option Resultados :=
  match calcular df with
  | .error e => (.error e, st)
  | .ok r => (.ok r, some r)

/-- Model of `calcular` paired with the dataframe object seen by the
caller afterwards: `_validar_dataframe` copies the frame before its
re-parsing and row-dropping, so the caller's frame comes back unchanged. -/
def calcularComEntrada (df : DataFrame) : Except CalcErr Resultados × DataFrame :=
  (calcular df, df)

/-! ## Record cleaner: `src/processamento/limpeza.py` -/

/-- A raw cell before type coercion: a parseable value, a present but
unparseable value (turned into NaN by `errors="coerce"` and counted), or
an already-missing value. -/
inductive Cell (α : Type) where
  | missing
  | bad
  | val (a : α)
deriving DecidableEq, Repr

/-- Coercion of one raw cell (`pd.to_datetime` / `pd.to_numeric` with
`errors="coerce"`): only parseable values survive. -/
def coerce (c : Cell α) : Option α :=
  match c with
  | .val a => some a
  | _ => none

/-- Whether a cell is present but unparseable (counted as converted). -/
def isBad (c : Cell α) : Bool :=
  match c with
  | .bad => true
  | _ => false

/-- A raw input row over the four required columns; `produto` is text and
is never coerced, so only presence matters for it. -/
structure RawRow where
  data : Cell ℤ
  produto : Option String
  valor : Cell ℚ
  quantidade : Cell ℚ
deriving DecidableEq, Repr

/-- The raw DataFrame handed to `limpar`. -/
structure RawDF where
  cols : List String
  rows : List RawRow
deriving DecidableEq, Repr

/-- A row after `converter_tipos`: coerced values, NaN as `none`. -/
structure ConvRow where
  data : Option ℤ
  produto : Option String
  valor : Option ℚ
  quantidade : Option ℚ
deriving DecidableEq, Repr

/-- A row after `remover_registros_invalidos`: every required field
present, price coerced to float and quantity to int. -/
structure ValidRow where
  data : ℤ
  produto : String
  valor : ℚ
  quantidade : ℤ
deriving DecidableEq, Repr

/-- A row after `criar_features_derivadas`. -/
structure FeatRow where
  data : ℤ
  produto : String
  valor : ℚ
  quantidade : ℤ
  receita : ℚ
  ano : ℤ
  mes : ℤ
  dia_semana : ℤ
  dia_mes : ℤ
  semana_ano : ℤ
deriving DecidableEq, Repr

/-- A fully cleaned row after `aplicar_categorias`. -/
structure CleanRow where
  data : ℤ
  produto : String
  valor : ℚ
  quantidade : ℤ
  receita : ℚ
  ano : ℤ
  mes : ℤ
  dia_semana : ℤ
  dia_mes : ℤ
  semana_ano : ℤ
  categoria : String
  margem : ℚ
  lucro : ℚ
deriving DecidableEq, Repr

/-- One row of the optional reference file `dados/categorias_produtos.csv`
(columns produto, categoria_sugerida, margem_sugerida; empty cells read
as NaN). -/
structure CatEntry where
  produto : String
  categoria_sugerida : Option String
  margem_sugerida : Option ℚ
deriving DecidableEq, Repr

/-- The cleaning report dictionary; `produtos_sem_categoria` is `none`
when the key was never written (the missing-file branch returns early). -/
structure Relatorio where
  registros_iniciais : ℕ
  duplicatas_removidas : ℕ
  valores_invalidos_convertidos : ℕ
  registros_invalidos : ℕ
  outliers_removidos_valor : ℕ
  produtos_sem_categoria : Option ℕ
  registros_finais : ℕ
  taxa_aproveitamento : ℚ
deriving DecidableEq, Repr

/-- The outcome of a successful cleaning run. -/
structure CleanResult where
  rows : List CleanRow
  relatorio : Relatorio
deriving DecidableEq, Repr

/-- The fatal outcomes of `limpar`: the schema `ValueError` of
`validar_colunas`, and the `ZeroDivisionError` raised by the utilization
rate `final / inicial * 100` when the input had zero rows. -/
inductive LimpErr where
  | schemaError (faltando : List String)
  | divisaoPorZero
deriving DecidableEq, Repr

/-- The required columns `COLUNAS_OBRIGATORIAS`. -/
def COLUNAS_OBRIGATORIAS : List String := ["data", "produto", "valor", "quantidade"]

/-- Model of `validar_colunas`: the required columns absent from the
frame, `none` when the schema is complete. -/
def validar_colunas (df : RawDF) : Option (List String) :=
  let faltando := COLUNAS_OBRIGATORIAS.filter (fun c => ! df.cols.contains c)
  if faltando.isEmpty then none else some faltando

/-- Keep-first deduplication, as pandas `drop_duplicates()` over whole
rows. -/
def dedupFirst [DecidableEq α] : List α → List α
  | [] => []
  | a :: as => a :: dedupFirst (as.filter (fun b => b != a))
termination_by l => l.length
decreasing_by
  simp only [List.length_cons]
  exact Nat.lt_succ_of_le (List.length_filter_le _ _)

/-- Model of `remover_duplicatas`: deduplicated rows and the number
removed. -/
def remover_duplicatas (rows : List RawRow) : List RawRow × ℕ :=
  let d := dedupFirst rows
  (d, rows.length - d.length)

/-- Model of `converter_tipos`: coerce the three non-text columns and
count the values newly turned into NaN, summed over the columns. -/
def converter_tipos (rows : List RawRow) : List ConvRow × ℕ :=
  (rows.map (fun r => ⟨coerce r.data, r.produto, coerce r.valor, coerce r.quantidade⟩),
   (rows.map (fun r =>
     (if isBad r.data then 1 else 0) + (if isBad r.valor then 1 else 0) +
       (if isBad r.quantidade then 1 else 0))).sum)

/-- Model of `remover_registros_invalidos`: drop rows with any required
field missing or with non-positive price or quantity, then coerce price
to float and quantity to int (truncation). -/
def remover_registros_invalidos (rows : List ConvRow) : List ValidRow × ℕ :=
  let kept := rows.filterMap (fun r =>
    match r.data, r.produto, r.valor, r.quantidade with
    | some d, some p, some v, some q =>
      if 0 < v ∧ 0 < q then some (⟨d, p, v, truncQ q⟩ : ValidRow) else none
    | _, _, _, _ => none)
  (kept, rows.length - kept.length)

/-- Pandas `Series.quantile(p)` with the default linear interpolation,
meaningful on a non-empty list. -/
def quantileQ (l : List ℚ) (p : ℚ) : ℚ :=
  let s := isort (fun a b => decide (a ≤ b)) l
  let h := ((l.length : ℚ) - 1) * p
  let i := (floorQ h).toNat
  let lower := s.getD i 0
  let upper := s.getD (min (i + 1) (l.length - 1)) 0
  lower + (h - (i : ℚ)) * (upper - lower)

/-- Model of `remover_outliers_extremos` on the `valor` column (always
present here, so the absent-column early return never fires): keep rows
inside [Q1 - k·IQR, Q3 + k·IQR]. On an empty frame the quantiles are NaN
and every comparison is false, leaving the frame empty. -/
def remover_outliers_extremos (limite_iqr : ℚ) (rows : List ValidRow) :
    List ValidRow × ℕ :=
  if rows.isEmpty then (rows, 0)
  else
    let vs := rows.map ValidRow.valor
    let q1 := quantileQ vs (25/100)
    let q3 := quantileQ vs (75/100)
    let iqr := q3 - q1
    let li := q1 - limite_iqr * iqr
    let ls := q3 + limite_iqr * iqr
    let kept := rows.filter (fun r => decide (li ≤ r.valor ∧ r.valor ≤ ls))
    (kept, rows.length - kept.length)

/-- Model of `criar_features_derivadas`: revenue plus the calendar
columns derived from the date. -/
def criar_features_derivadas (rows : List ValidRow) : List FeatRow :=
  rows.map (fun r =>
    { data := r.data
      produto := r.produto
      valor := r.valor
      quantidade := r.quantidade
      receita := r.valor * (r.quantidade : ℚ)
      ano := (civilFromDays r.data).1
      mes := (civilFromDays r.data).2.1
      dia_semana := weekdayOf r.data
      dia_mes := (civilFromDays r.data).2.2
      semana_ano := isoWeekOf r.data })

/-- Builds the final cleaned row from a feature row and the resolved
category and margin; `lucro = round(receita * margem, 2)`. -/
def mkClean (r : FeatRow) (categoria : String) (margem : ℚ) : CleanRow :=
  { data := r.data
    produto := r.produto
    valor := r.valor
    quantidade := r.quantidade
    receita := r.receita
    ano := r.ano
    mes := r.mes
    dia_semana := r.dia_semana
    dia_mes := r.dia_mes
    semana_ano := r.semana_ano
    categoria := categoria
    margem := margem
    lucro := round2 (r.receita * margem) }

/-- Model of the left merge `df.merge(categorias, on="produto",
how="left")`: each row is replicated once per matching reference row, or
kept once with NaN suggestions when nothing matches. -/
def mergeCategorias (categorias : List CatEntry) (rows : List FeatRow) :
    List (FeatRow × Option String × Option ℚ) :=
  rows.flatMap (fun r =>
    match categorias.filter (fun e => e.produto == r.produto) with
    | [] => [(r, none, none)]
    | ms => ms.map (fun e => (r, e.categoria_sugerida, e.margem_sugerida)))

/-- Model of `aplicar_categorias`. With no reference file
(`FileNotFoundError`), every row gets category "Outros" and the generic
margin 0.20, and the report key for uncategorised products is never
written (`none`). With a file, the left merge is followed by counting the
NaN suggested categories, `fillna` with "Outros" / 0.20, and the profit
column. -/
def aplicar_categorias (categorias : Option (List CatEntry)) (rows : List FeatRow) :
    List CleanRow × Option ℕ :=
  match categorias with
  | none => (rows.map (fun r => mkClean r "Outros" (20/100)), none)
  | some cats =>
    let merged := mergeCategorias cats rows
    let sem_cat := (merged.filter (fun m => m.2.1.isNone)).length
    (merged.map (fun m => mkClean m.1 (m.2.1.getD "Outros") (m.2.2.getD (20/100))),
     some sem_cat)

/-- Model of `ordenar_dados`: chronological sort (the dense reindex is
implicit in the list representation). -/
def ordenar_dados (rows : List CleanRow) : List CleanRow :=
  isort (fun a b => decide (a.data ≤ b.data)) rows

/-- Model of `LimpezaDados.limpar`: the fixed stage pipeline. The final
utilization rate divides by `registros_iniciais`; on a zero-row input
that division is Python's `ZeroDivisionError`, modelled as the
`divisaoPorZero` outcome. -/
def limpar (categorias : Option (List CatEntry)) (df : RawDF) :
    Except LimpErr CleanResult :=
  let inicial := df.rows.length
  match validar_colunas df with
  | some faltando => .error (.schemaError faltando)
  | none =>
    let d := remover_duplicatas df.rows
    let c := converter_tipos d.1
    let v := remover_registros_invalidos c.1
    let o := remover_outliers_extremos 3 v.1
    let f := criar_features_derivadas o.1
    let a := aplicar_categorias categorias f
    let rowsOut := ordenar_dados a.1
    let final := rowsOut.length
    if inicial = 0 then .error .divisaoPorZero
    else
      .ok { rows := rowsOut
            relatorio :=
              { registros_iniciais := inicial
                duplicatas_removidas := d.2
                valores_invalidos_convertidos := c.2
                registros_invalidos := v.2
                outliers_removidos_valor := o.2
                produtos_sem_categoria := a.2
                registros_finais := final
                taxa_aproveitamento := round2 ((final : ℚ) / (inicial : ℚ) * 100) } }

/-! ## Basic lemmas about the helpers -/

theorem floorQ_intCast (n : ℤ) : floorQ (n : ℚ) = n := by
  simp [floorQ, Rat.intCast_num, Rat.intCast_den]

theorem roundHalfEven_intCast (n : ℤ) : roundHalfEven (n : ℚ) = n := by
  simp only [roundHalfEven, floorQ_intCast, sub_self]
  rw [if_pos (by norm_num)]

theorem round2_intCast (n : ℤ) : round2 (n : ℚ) = n := by
  have h : ((n : ℚ)) * 100 = ((n * 100 : ℤ) : ℚ) := by push_cast; ring
  rw [round2, h, roundHalfEven_intCast]
  push_cast
  ring

theorem round2_zero : round2 0 = 0 := by
  simpa using round2_intCast 0

theorem sumQ_nil : sumQ [] = 0 := rfl

theorem sumQ_eq_sum (l : List ℚ) : sumQ l = l.sum := by
  simp [sumQ, List.sum_eq_foldl]

theorem sumQ_cons (a : ℚ) (l : List ℚ) : sumQ (a :: l) = a + sumQ l := by
  simp [sumQ_eq_sum]

theorem perm_insertLe (le : α → α → Bool) (a : α) :
    ∀ l : List α, (insertLe le a l).Perm (a :: l)
  | [] => List.Perm.refl _
  | b :: bs => by
    rw [insertLe]
    split
    · exact List.Perm.refl _
    · exact ((perm_insertLe le a bs).cons b).trans (List.Perm.swap a b bs)

theorem perm_isort (le : α → α → Bool) : ∀ l : List α, (isort le l).Perm l
  | [] => List.Perm.refl _
  | b :: bs => (perm_insertLe le b (isort le bs)).trans ((perm_isort le bs).cons b)

/-! ## Concrete frames used to instantiate the theorems -/

/-- A zero-row frame carrying all columns of the cleaned schema. -/
def dfVazio : DataFrame := ⟨colunas_necessarias, []⟩

/-- A one-row frame with a valid date. -/
def dfUm : DataFrame := ⟨colunas_necessarias, [⟨some 0, "p", 1, 1, 1, 1970, 1, 3⟩]⟩

/-- A one-row frame whose date failed to parse (NaT). -/
def dfNaT : DataFrame := ⟨colunas_necessarias, [⟨none, "p", 1, 1, 1, 1970, 1, 3⟩]⟩

/-! ## Claim theorems -/

/-- C4: `calcular` rejects a zero-row frame with the empty-dataset error,
and never raises that error on a frame with at least one row and all
required columns present. -/
theorem calcular_rejeita_vazio :
    (∀ df : DataFrame, df.rows = [] → calcular df = .error .emptyDataset) ∧
    (∀ df : DataFrame, df.rows ≠ [] →
      (∀ c ∈ colunas_necessarias, df.cols.contains c = true) →
      calcular df ≠ .error .emptyDataset) := by
  constructor
  · intro df h
    simp [calcular, h]
  · intro df hne hcols
    have hvr : validar_dataframe df = .ok (linhasValidas df) := by
      rw [validar_dataframe, if_pos]
      simp only [List.isEmpty_iff, List.filter_eq_nil_iff]
      intro c hc
      simpa using hcols c hc
    simp [calcular, hne, hvr, Except.map]

/-- C4 witness: the empty frame is rejected with the empty-dataset error;
a one-row frame with the full schema is not. -/
theorem calcular_rejeita_vazio_witness :
    (dfVazio.rows = [] ∧ calcular dfVazio = .error .emptyDataset) ∧
    (dfUm.rows ≠ [] ∧ (∀ c ∈ colunas_necessarias, dfUm.cols.contains c = true) ∧
      calcular dfUm ≠ .error .emptyDataset) :=
  ⟨⟨rfl, calcular_rejeita_vazio.1 dfVazio rfl⟩,
   ⟨by simp [dfUm], by decide,
     calcular_rejeita_vazio.2 dfUm (by simp [dfUm]) (by decide)⟩⟩

/-- C7: the dictionary returned by `calcular` does not depend on the
`resultados` state left behind by earlier calls, so a second run on the
identical frame returns the identical metrics dictionary. -/
theorem calcular_idempotente (st : Option Resultados) (df : DataFrame) :
    (calcularSt (calcularSt st df).2 df).1 = (calcularSt st df).1 ∧
    ∀ st2 : Option Resultados, (calcularSt st2 df).1 = (calcularSt st df).1 := by
  unfold calcularSt
  cases calcular df <;> simp

/-- C10: `calcular` leaves the caller's dataframe unchanged — the date
re-parsing and NaT row-dropping of `_validar_dataframe` act on the
internal copy only. The second conjunct exhibits a frame on which the
internal copy actually drops a row while the caller keeps it. -/
theorem calcular_nao_muta_entrada :
    (∀ df : DataFrame, (calcularComEntrada df).2 = df) ∧
    validar_dataframe dfNaT = .ok [] ∧ dfNaT.rows ≠ [] := by
  refine ⟨fun df => rfl, rfl, by simp [dfNaT]⟩

/-- C3 evaluation: on a frame that has all four required columns but zero
rows, `limpar` reaches the utilization rate `final / inicial * 100` with
`inicial = 0` and aborts with a division by zero instead of completing. -/
theorem limpar_divide_por_zero_em_vazio :
    limpar none ⟨COLUNAS_OBRIGATORIAS, []⟩ = .error .divisaoPorZero := by
  have hv : validar_colunas ⟨COLUNAS_OBRIGATORIAS, []⟩ = none := by decide
  simp [limpar, hv]

/-- Any string containing "mousepad" also contains "mouse". -/
theorem containsStr_mouse_of_mousepad (s : String)
    (h : containsStr "mousepad" s = true) : containsStr "mouse" s = true := by
  have hsplit : "mousepad".data = "mouse".data ++ "pad".data := by decide
  unfold containsStr at h ⊢
  rw [hsplit] at h
  exact containsSub_of_append _ _ _ h

/-- C9 counterexample: the product name "Notebook Mousepad" contains
"mousepad" case-insensitively, yet its resolved margin is the notebook
margin 0.10, not the mouse margin 0.50, because "notebook" precedes
"mouse" in the table. -/
theorem margem_mousepad_contraexemplo :
    containsStr "mousepad" (lowerStr "Notebook Mousepad") = true ∧
    margem_produto "Notebook Mousepad" ≠ 50/100 := by
  have hlow : lowerStr "Notebook Mousepad" = "notebook mousepad" := by decide
  have h1 : containsStr "notebook" "notebook mousepad" = true := by decide
  constructor
  · rw [hlow]; decide
  · have : margem_produto "Notebook Mousepad" = 10/100 := by
      rw [margem_produto, hlow]
      simp [MARGENS_CATEGORIA, lookupMargem, h1]
    rw [this]
    norm_num

/-- A scan over entries whose keywords all miss continues past them. -/
theorem lookupMargem_skip (s : String) :
    ∀ front rest, (∀ pm ∈ front, containsStr pm.1 s = false) →
      lookupMargem (front ++ rest) s = lookupMargem rest s
  | [], _, _ => rfl
  | (q, n) :: front, rest, h => by
    rw [List.cons_append]
    simp only [lookupMargem]
    rw [if_neg (by simp [h (q, n) (List.mem_cons_self _ _)])]
    exact lookupMargem_skip s front rest (fun pm hpm => h pm (List.mem_cons_of_mem _ hpm))

/-- When an entry matches and neither it nor any earlier entry carries the
target margin, the scan cannot return the target. -/
theorem lookupMargem_ne_after (s : String) (target : ℚ) (p0 : String) (m0 : ℚ)
    (hm0 : m0 ≠ target) (hmatch : containsStr p0 s = true) :
    ∀ front tail, (∀ pm ∈ front, pm.2 ≠ target) →
      lookupMargem (front ++ (p0, m0) :: tail) s ≠ target
  | [], tail, _ => by
    rw [List.nil_append]
    simp only [lookupMargem]
    rw [if_pos hmatch]
    exact hm0
  | (q, n) :: front, tail, h => by
    rw [List.cons_append]
    simp only [lookupMargem]
    by_cases hq : containsStr q s = true
    · rw [if_pos hq]
      exact h (q, n) (List.mem_cons_self _ _)
    · rw [if_neg hq]
      exact lookupMargem_ne_after s target p0 m0 hm0 hmatch front tail
        (fun pm hpm => h pm (List.mem_cons_of_mem _ hpm))

/-- When every entry carrying the target margin fails to match, the scan
cannot return the target (the default 0.25 is not 0.60). -/
theorem lookupMargem_ne60 (s : String) :
    ∀ table, (∀ pm ∈ table, pm.2 = 60/100 → containsStr pm.1 s = false) →
      lookupMargem table s ≠ 60/100
  | [], _ => by
    simp only [lookupMargem, MARGEM_PADRAO]
    norm_num
  | (q, n) :: table, h => by
    simp only [lookupMargem]
    by_cases hq : containsStr q s = true
    · rw [if_pos hq]
      intro hn
      have hfalse := h (q, n) (List.mem_cons_self _ _) hn
      rw [hq] at hfalse
      exact absurd hfalse (by simp)
    · rw [if_neg hq]
      exact lookupMargem_ne60 s table (fun pm hpm => h pm (List.mem_cons_of_mem _ hpm))

/-- C9 amended: since "mouse" precedes "mousepad" in the margin table,
any product name whose lowercase form contains "mousepad" and none of the
seven keywords listed before "mouse" resolves to the mouse margin 0.50,
and the 0.60 mousepad margin is unreachable for every input. -/
theorem margem_mousepad_sombreada (nome : String)
    (hmp : containsStr "mousepad" (lowerStr nome) = true)
    (hnot : ∀ k ∈ ["notebook", "monitor", "ssd", "hd", "memória", "memoria", "ram"],
      containsStr k (lowerStr nome) = false) :
    margem_produto nome = 50/100 ∧
    ∀ nome2 : String, margem_produto nome2 ≠ 60/100 := by
  constructor
  · have hmouse := containsStr_mouse_of_mousepad _ hmp
    have h1 := hnot "notebook" (by simp)
    have h2 := hnot "monitor" (by simp)
    have h3 := hnot "ssd" (by simp)
    have h4 := hnot "hd" (by simp)
    have h5 := hnot "memória" (by simp)
    have h6 := hnot "memoria" (by simp)
    have h7 := hnot "ram" (by simp)
    rw [margem_produto]
    simp [MARGENS_CATEGORIA, lookupMargem, h1, h2, h3, h4, h5, h6, h7, hmouse]
  · intro nome2
    rw [margem_produto]
    by_cases hm : containsStr "mouse" (lowerStr nome2) = true
    · have hsplit : MARGENS_CATEGORIA =
          [("notebook", (10:ℚ)/100), ("monitor", 15/100), ("ssd", 25/100),
           ("hd", 20/100), ("memória", 30/100), ("memoria", 30/100), ("ram", 30/100)] ++
            ("mouse", (50:ℚ)/100) ::
              [("teclado", (45:ℚ)/100), ("headset", 40/100), ("fone", 40/100),
               ("webcam", 35/100), ("cadeira", 30/100), ("mousepad", 60/100)] := rfl
      rw [hsplit]
      refine lookupMargem_ne_after _ _ _ _ (by norm_num) hm _ _ ?_
      intro pm hpm
      simp only [List.mem_cons, List.not_mem_nil, or_false] at hpm
      rcases hpm with rfl | rfl | rfl | rfl | rfl | rfl | rfl <;> norm_num
    · have hmpf : containsStr "mousepad" (lowerStr nome2) = false := by
        cases hx : containsStr "mousepad" (lowerStr nome2)
        · rfl
        · exact absurd (containsStr_mouse_of_mousepad _ hx) hm
      apply lookupMargem_ne60
      intro pm hpm h60
      simp only [MARGENS_CATEGORIA, List.mem_cons, List.not_mem_nil, or_false] at hpm
      rcases hpm with rfl | rfl | rfl | rfl | rfl | rfl | rfl | rfl | rfl | rfl | rfl | rfl | rfl | rfl
      all_goals first
        | exact hmpf
        | exact absurd h60 (by norm_num)

/-- Evaluation of `calcular` on a frame with the full schema and at least
one row: the metrics are computed from the validated rows. -/
theorem calcular_ok (df : DataFrame)
    (hcols : ∀ c ∈ colunas_necessarias, df.cols.contains c = true)
    (hne : df.rows ≠ []) :
    calcular df = .ok (calcularNucleo (linhasValidas df)) := by
  have hvr : validar_dataframe df = .ok (linhasValidas df) := by
    rw [validar_dataframe, if_pos]
    simp only [List.isEmpty_iff, List.filter_eq_nil_iff]
    intro c hc
    simpa using hcols c hc
  simp [calcular, hne, hvr, Except.map]

/-- Indexing a map over `List.range`. -/
theorem getD_range_map {α : Type} (f : ℕ → α) (d : α) (n i : ℕ) (h : i < n) :
    ((List.range n).map f).getD i d = f i := by
  rw [List.getD_eq_getElem?_getD, List.getElem?_map, List.getElem?_range h]
  rfl

/-- C5: on every schema-complete non-empty frame the weekday map carries
exactly the 7 abbreviations Monday..Sunday in order; each weekday's value
is its (rounded) summed revenue, and a weekday with no sales is 0. -/
theorem receita_dia_semana_completa (df : DataFrame)
    (hcols : ∀ c ∈ colunas_necessarias, df.cols.contains c = true)
    (hne : df.rows ≠ []) :
    ∃ r, calcular df = .ok r ∧
      r.receita_dia_semana.map Prod.fst = mapa_dias ∧
      (∀ i : ℕ, i < 7 → r.receita_dia_semana.getD i ("", 0) =
        (mapa_dias.getD i "", round2 (receitaDoDia (linhasValidas df) (i : ℤ)))) ∧
      (∀ i : ℕ, i < 7 → (∀ row ∈ linhasValidas df, row.dia_semana ≠ (i : ℤ)) →
        (r.receita_dia_semana.getD i ("", 0)).2 = 0) := by
  refine ⟨calcularNucleo (linhasValidas df), calcular_ok df hcols hne, ?_, ?_, ?_⟩
  · simp only [calcularNucleo, receitaDiaSemanaCalc, List.map_map]
    rfl
  · intro i hi
    simp only [calcularNucleo, receitaDiaSemanaCalc]
    rw [getD_range_map _ _ 7 i hi]
  · intro i hi hnone
    simp only [calcularNucleo, receitaDiaSemanaCalc]
    rw [getD_range_map _ _ 7 i hi]
    have hfil : (linhasValidas df).filter (fun r => r.dia_semana == (i : ℤ)) = [] := by
      rw [List.filter_eq_nil_iff]
      intro row hrow
      simpa using hnone row hrow
    simp [receitaDoDia, hfil, sumQ_nil, round2_zero]

/-- A two-row frame with sales only on a Monday (weekday 0) and a Friday
(weekday 4). -/
def dfSegSex : DataFrame :=
  ⟨colunas_necessarias,
   [⟨some 0, "p", 1, 1, 100, 1970, 1, 0⟩, ⟨some 4, "p", 1, 1, 50, 1970, 1, 4⟩]⟩

/-- C5 witness: the Monday-and-Friday frame satisfies the hypotheses, so
its weekday map has all 7 keys and zeros on the five absent days. -/
theorem receita_dia_semana_completa_witness :
    (∀ c ∈ colunas_necessarias, dfSegSex.cols.contains c = true) ∧
    dfSegSex.rows ≠ [] ∧
    (∃ r, calcular dfSegSex = .ok r ∧
      r.receita_dia_semana.map Prod.fst = mapa_dias ∧
      (∀ i : ℕ, i < 7 → r.receita_dia_semana.getD i ("", 0) =
        (mapa_dias.getD i "", round2 (receitaDoDia (linhasValidas dfSegSex) (i : ℤ)))) ∧
      (∀ i : ℕ, i < 7 → (∀ row ∈ linhasValidas dfSegSex, row.dia_semana ≠ (i : ℤ)) →
        (r.receita_dia_semana.getD i ("", 0)).2 = 0)) :=
  ⟨by decide, by simp [dfSegSex],
    receita_dia_semana_completa dfSegSex (by decide) (by simp [dfSegSex])⟩

theorem mesLe_iff (a b : ℤ × ℤ) :
    mesLe a b = true ↔ a.1 < b.1 ∨ (¬ a.1 < b.1 ∧ ¬ b.1 < a.1 ∧ a.2 ≤ b.2) := by
  simp only [mesLe]
  split_ifs with h1 h2
  · simp [h1]
  · simp [h1, h2]
  · simp [h1, h2]

theorem mesLe_total (a b : ℤ × ℤ) : mesLe a b = true ∨ mesLe b a = true := by
  rw [mesLe_iff, mesLe_iff]
  omega

theorem mesLe_trans (a b c : ℤ × ℤ) (h1 : mesLe a b = true) (h2 : mesLe b c = true) :
    mesLe a c = true := by
  rw [mesLe_iff] at h1 h2 ⊢
  omega

theorem getD_zero_of_head {α : Type} (l : List α) (d p : α) (h : l.head? = some p) :
    l.getD 0 d = p := by
  cases l with
  | nil => simp at h
  | cons a as => simp_all [List.getD_cons_zero]

/-- C6: on every schema-complete non-empty frame the monthly groups are
sorted by (year, month); the growth metric is the (rounded) percentage
change from the first to the last month when at least two months are
present and the first month's revenue is positive, and 0 when fewer than
two months are present or the first month's revenue is 0. -/
theorem crescimento_percentual_spec (df : DataFrame)
    (hcols : ∀ c ∈ colunas_necessarias, df.cols.contains c = true)
    (hne : df.rows ≠ []) :
    ∃ r, calcular df = .ok r ∧
      ((receitaMensalGroup (linhasValidas df)).map Prod.fst).Pairwise
        (fun a b => mesLe a b = true) ∧
      (∀ p l, 2 ≤ (receitaMensalGroup (linhasValidas df)).length →
        (receitaMensalGroup (linhasValidas df)).head? = some p →
        (receitaMensalGroup (linhasValidas df)).getLast? = some l →
        0 < p.2 →
        r.crescimento_percentual = round2 ((l.2 - p.2) / p.2 * 100)) ∧
      ((receitaMensalGroup (linhasValidas df)).length < 2 →
        r.crescimento_percentual = 0) ∧
      (∀ p, (receitaMensalGroup (linhasValidas df)).head? = some p → p.2 = 0 →
        r.crescimento_percentual = 0) := by
  refine ⟨calcularNucleo (linhasValidas df), calcular_ok df hcols hne, ?_, ?_, ?_, ?_⟩
  · simp only [receitaMensalGroup, List.map_map]
    have hid : (Prod.fst ∘ fun am => (am, receitaDoMes (linhasValidas df) am)) = id := rfl
    rw [hid, List.map_id, mesesOrdenados]
    exact pairwise_isort mesLe mesLe_total mesLe_trans _
  · intro p l hlen hhead hlast hpos
    have hproj : (calcularNucleo (linhasValidas df)).crescimento_percentual =
        round2 (crescimentoCalc (linhasValidas df)) := rfl
    rw [hproj, crescimentoCalc]
    rw [if_pos hlen, getD_zero_of_head _ _ _ hhead, hlast]
    simp only [Option.getD_some]
    rw [if_pos hpos]
  · intro hlen
    have hproj : (calcularNucleo (linhasValidas df)).crescimento_percentual =
        round2 (crescimentoCalc (linhasValidas df)) := rfl
    rw [hproj, crescimentoCalc, if_neg (by omega), round2_zero]
  · intro p hhead hp0
    have hproj : (calcularNucleo (linhasValidas df)).crescimento_percentual =
        round2 (crescimentoCalc (linhasValidas df)) := rfl
    rw [hproj, crescimentoCalc]
    by_cases hlen : 2 ≤ (receitaMensalGroup (linhasValidas df)).length
    · rw [if_pos hlen, getD_zero_of_head _ _ _ hhead, hp0,
        if_neg (lt_irrefl 0), round2_zero]
    · rw [if_neg hlen, round2_zero]

/-- A frame with revenue 1000 in 2024-01 and 1300 in 2024-02. -/
def dfCresc : DataFrame :=
  ⟨colunas_necessarias,
   [⟨some 19723, "p", 1, 1, 1000, 2024, 1, 0⟩, ⟨some 19754, "q", 1, 1, 1300, 2024, 2, 3⟩]⟩

/-- C6 witness: with monthly revenues 1000 (January) and 1300 (February)
the growth metric evaluates to 30.0. -/
theorem crescimento_percentual_spec_witness :
    (∀ c ∈ colunas_necessarias, dfCresc.cols.contains c = true) ∧
    dfCresc.rows ≠ [] ∧
    ∃ r, calcular dfCresc = .ok r ∧ r.crescimento_percentual = 30 := by
  have hcols : ∀ c ∈ colunas_necessarias, dfCresc.cols.contains c = true := by decide
  have hne : dfCresc.rows ≠ [] := by simp [dfCresc]
  obtain ⟨r, hok, _, hgrow, _, _⟩ := crescimento_percentual_spec dfCresc hcols hne
  have hgroup : receitaMensalGroup (linhasValidas dfCresc) =
      [((2024, 1), 1000), ((2024, 2), 1300)] := by
    have hlv : linhasValidas dfCresc =
        [⟨19723, "p", 1, 1, 1000, 2024, 1, 0⟩, ⟨19754, "q", 1, 1, 1300, 2024, 2, 3⟩] := rfl
    rw [receitaMensalGroup, mesesOrdenados, hlv]
    norm_num [List.dedup_cons_of_not_mem, isort, insertLe, mesLe, receitaDoMes, sumQ]
  refine ⟨hcols, hne, r, hok, ?_⟩
  have h30 : round2 ((((2024, 2), (1300 : ℚ)).2 - ((2024, 1), (1000 : ℚ)).2) /
      ((2024, 1), (1000 : ℚ)).2 * 100) = 30 := by
    have : ((((2024, 2), (1300 : ℚ)).2 - ((2024, 1), (1000 : ℚ)).2) /
        ((2024, 1), (1000 : ℚ)).2 * 100) = ((30 : ℤ) : ℚ) := by norm_num
    rw [this, round2_intCast]
    norm_num
  rw [hgrow ((2024, 1), 1000) ((2024, 2), 1300) (by rw [hgroup]; norm_num)
      (by rw [hgroup]; rfl) (by rw [hgroup]; rfl) (by norm_num), h30]

theorem getD_take {α : Type} (l : List α) (n i : ℕ) (d : α) (h : i < n) :
    (l.take n).getD i d = l.getD i d := by
  rw [List.getD_eq_getElem?_getD, List.getD_eq_getElem?_getD, List.getElem?_take,
    if_pos h]

theorem getD_map_of_lt {α β : Type} (f : α → β) (l : List α) (i : ℕ) (da : α)
    (db : β) (h : i < l.length) : (l.map f).getD i db = f (l.getD i da) := by
  rw [List.getD_eq_getElem?_getD, List.getElem?_map, List.getElem?_eq_getElem h,
    List.getD_eq_getElem?_getD, List.getElem?_eq_getElem h]
  rfl

theorem getD_zip {α β : Type} (l : List α) (m : List β) (i : ℕ) (da : α) (db : β)
    (h1 : i < l.length) (h2 : i < m.length) :
    (l.zip m).getD i (da, db) = (l.getD i da, m.getD i db) := by
  have hz : (l.zip m)[i]? = some (l[i], m[i]) := by
    rw [List.getElem?_zip_eq_some]
    exact ⟨List.getElem?_eq_getElem h1, List.getElem?_eq_getElem h2⟩
  rw [List.getD_eq_getElem?_getD, hz, List.getD_eq_getElem?_getD,
    List.getElem?_eq_getElem h1, List.getD_eq_getElem?_getD,
    List.getElem?_eq_getElem h2]
  rfl

theorem length_cumsumFrom : ∀ (acc : ℚ) (l : List ℚ),
    (cumsumFrom acc l).length = l.length
  | _, [] => rfl
  | acc, x :: xs => by
    simp only [cumsumFrom, List.length_cons, length_cumsumFrom (acc + x) xs]

theorem cumsumFrom_getD : ∀ (i : ℕ) (acc : ℚ) (l : List ℚ), i < l.length →
    (cumsumFrom acc l).getD i 0 = acc + sumQ (l.take (i + 1))
  | 0, _, [], h => by simp at h
  | _ + 1, _, [], h => by simp at h
  | 0, acc, x :: xs, _ => by
    simp only [cumsumFrom, List.getD_cons_zero, List.take_succ_cons, List.take_zero,
      sumQ_cons, sumQ_nil]
    ring
  | i + 1, acc, x :: xs, h => by
    have hlt : i < xs.length := by
      simp only [List.length_cons] at h
      omega
    simp only [cumsumFrom, List.getD_cons_succ, List.take_succ_cons, sumQ_cons]
    rw [cumsumFrom_getD i (acc + x) xs hlt]
    ring

theorem sumQ_map_div_mul (l : List ℚ) (t : ℚ) :
    sumQ (l.map (fun x => x / t * 100)) = sumQ l / t * 100 := by
  induction l with
  | nil => simp [sumQ_nil]
  | cons x xs ih => rw [List.map_cons, sumQ_cons, sumQ_cons, ih, add_div, add_mul]

theorem byReceitaDesc_total {α : Type} (a b : α × ℚ) :
    byReceitaDesc a b = true ∨ byReceitaDesc b a = true := by
  simp only [byReceitaDesc, decide_eq_true_eq]
  exact le_total b.2 a.2

theorem byReceitaDesc_trans {α : Type} (a b c : α × ℚ)
    (h1 : byReceitaDesc a b = true) (h2 : byReceitaDesc b c = true) :
    byReceitaDesc a c = true := by
  simp only [byReceitaDesc, decide_eq_true_eq] at h1 h2 ⊢
  exact le_trans h2 h1

theorem length_participacao (rows : List Row) :
    (participacaoAcumulada rows).length = (receita_por_produto rows).length := by
  simp [participacaoAcumulada, cumsum, length_cumsumFrom]

theorem length_curvaAbc (rows : List Row) :
    (curvaAbcCalc rows).length = min 10 (receita_por_produto rows).length := by
  simp only [curvaAbcCalc, List.length_take, List.length_map, List.length_zip,
    length_participacao, min_self]

theorem curvaAbc_getD (rows : List Row) (htot : 0 < receitaTotal rows) (i : ℕ)
    (hi : i < (curvaAbcCalc rows).length) :
    (curvaAbcCalc rows).getD i ("", 0, "") =
      (((receita_por_produto rows).getD i ("", 0)).1,
       round2 (((receita_por_produto rows).getD i ("", 0)).2),
       classifica_abc
         (sumQ (((receita_por_produto rows).map Prod.snd).take (i + 1)) /
           receitaTotal rows * 100)) := by
  rw [length_curvaAbc, lt_min_iff] at hi
  obtain ⟨hi10, hir⟩ := hi
  have hipart : i < (participacaoAcumulada rows).length := by
    rw [length_participacao]; exact hir
  have hizip : i < ((receita_por_produto rows).zip (participacaoAcumulada rows)).length := by
    rw [List.length_zip, length_participacao, min_self]; exact hir
  rw [curvaAbcCalc, getD_take _ _ _ _ hi10,
    getD_map_of_lt _ _ i (("", 0), 0) _ hizip,
    getD_zip _ _ i ("", 0) 0 hir hipart]
  have hpart : (participacaoAcumulada rows).getD i 0 =
      sumQ (((receita_por_produto rows).map Prod.snd).take (i + 1)) /
        receitaTotal rows * 100 := by
    simp only [participacaoAcumulada, cumsum]
    rw [cumsumFrom_getD i 0 _ (by rw [List.length_map]; exact hir), zero_add]
    have hfn : (fun pr : String × ℚ =>
        if 0 < receitaTotal rows then pr.2 / receitaTotal rows * 100 else 0) =
        (fun pr : String × ℚ => pr.2 / receitaTotal rows * 100) := by
      funext pr
      rw [if_pos htot]
    rw [hfn, ← List.map_take,
      show (fun pr : String × ℚ => pr.2 / receitaTotal rows * 100) =
        ((fun x : ℚ => x / receitaTotal rows * 100) ∘ Prod.snd) from rfl,
      ← List.map_map, sumQ_map_div_mul, List.map_take]
  rw [hpart]

/-- C1: on every schema-complete non-empty frame with positive total
revenue, the ABC curve ranks products by summed revenue descending (the
ranked list is a permutation of the per-product sums and is sorted), and
the class of the i-th ranked product is `classifica_abc` of the
cumulative revenue share of the first i+1 ranked products. -/
theorem curva_abc_spec (df : DataFrame)
    (hcols : ∀ c ∈ colunas_necessarias, df.cols.contains c = true)
    (hne : df.rows ≠ [])
    (htot : 0 < receitaTotal (linhasValidas df)) :
    ∃ r, calcular df = .ok r ∧
      (receita_por_produto (linhasValidas df)).Pairwise (fun a b => b.2 ≤ a.2) ∧
      (receita_por_produto (linhasValidas df)).Perm
        ((produtosOrdenados (linhasValidas df)).map
          (fun p => (p, receitaDoProduto (linhasValidas df) p))) ∧
      r.curva_abc.length = min 10 (receita_por_produto (linhasValidas df)).length ∧
      (∀ i : ℕ, i < r.curva_abc.length →
        r.curva_abc.getD i ("", 0, "") =
          (((receita_por_produto (linhasValidas df)).getD i ("", 0)).1,
           round2 (((receita_por_produto (linhasValidas df)).getD i ("", 0)).2),
           classifica_abc
             (sumQ (((receita_por_produto (linhasValidas df)).map Prod.snd).take (i + 1)) /
               receitaTotal (linhasValidas df) * 100))) := by
  refine ⟨calcularNucleo (linhasValidas df), calcular_ok df hcols hne, ?_, ?_, ?_, ?_⟩
  · exact (pairwise_isort byReceitaDesc byReceitaDesc_total byReceitaDesc_trans _).imp
      (fun h => by simpa [byReceitaDesc] using h)
  · exact perm_isort byReceitaDesc _
  · show (curvaAbcCalc (linhasValidas df)).length = _
    exact length_curvaAbc _
  · intro i hi
    exact curvaAbc_getD (linhasValidas df) htot i hi

theorem round2_eq_of_intCast (q : ℚ) (n : ℤ) (h : q = (n : ℚ)) : round2 q = q := by
  rw [h, round2_intCast]

theorem list_eq_of_len4 {α : Type} (l : List α) (d x0 x1 x2 x3 : α)
    (hlen : l.length = 4) (h0 : l.getD 0 d = x0) (h1 : l.getD 1 d = x1)
    (h2 : l.getD 2 d = x2) (h3 : l.getD 3 d = x3) : l = [x0, x1, x2, x3] := by
  cases l with
  | nil => simp at hlen
  | cons a t =>
    cases t with
    | nil => simp at hlen
    | cons b t =>
      cases t with
      | nil => simp at hlen
      | cons c t =>
        cases t with
        | nil => simp at hlen
        | cons e t =>
          cases t with
          | cons f t => simp at hlen
          | nil =>
            simp only [List.getD_cons_zero, List.getD_cons_succ] at h0 h1 h2 h3
            rw [h0, h1, h2, h3]

/-- The four-product frame whose ranked revenues are [100, 50, 30, 20]. -/
def dfAbc : DataFrame :=
  ⟨colunas_necessarias,
   [⟨some 0, "a", 1, 1, 100, 1970, 1, 3⟩, ⟨some 0, "b", 1, 1, 50, 1970, 1, 3⟩,
    ⟨some 0, "c", 1, 1, 30, 1970, 1, 3⟩, ⟨some 0, "d", 1, 1, 20, 1970, 1, 3⟩]⟩

/-- C1 witness: on ranked revenues [100, 50, 30, 20] (total 200, cumulative
shares [50, 75, 90, 100]) the ABC curve is [A, A, B, C]. -/
theorem curva_abc_spec_witness :
    (∀ c ∈ colunas_necessarias, dfAbc.cols.contains c = true) ∧
    dfAbc.rows ≠ [] ∧ 0 < receitaTotal (linhasValidas dfAbc) ∧
    ∃ r, calcular dfAbc = .ok r ∧
      r.curva_abc = [("a", 100, "A"), ("b", 50, "A"), ("c", 30, "B"), ("d", 20, "C")] := by
  have hcols : ∀ c ∈ colunas_necessarias, dfAbc.cols.contains c = true := by decide
  have hne : dfAbc.rows ≠ [] := by simp [dfAbc]
  have hlv : linhasValidas dfAbc =
      [⟨0, "a", 1, 1, 100, 1970, 1, 3⟩, ⟨0, "b", 1, 1, 50, 1970, 1, 3⟩,
       ⟨0, "c", 1, 1, 30, 1970, 1, 3⟩, ⟨0, "d", 1, 1, 20, 1970, 1, 3⟩] := rfl
  have htotal : receitaTotal (linhasValidas dfAbc) = 200 := by
    rw [hlv]
    norm_num [receitaTotal, sumQ]
  have htot : 0 < receitaTotal (linhasValidas dfAbc) := by
    rw [htotal]
    norm_num
  have hprods : produtosOrdenados (linhasValidas dfAbc) = ["a", "b", "c", "d"] := by decide
  have nba : (("b" : String) == "a") = false := by decide
  have nca : (("c" : String) == "a") = false := by decide
  have nda : (("d" : String) == "a") = false := by decide
  have nab : (("a" : String) == "b") = false := by decide
  have ncb : (("c" : String) == "b") = false := by decide
  have ndb : (("d" : String) == "b") = false := by decide
  have nac : (("a" : String) == "c") = false := by decide
  have nbc : (("b" : String) == "c") = false := by decide
  have ndc : (("d" : String) == "c") = false := by decide
  have nad : (("a" : String) == "d") = false := by decide
  have nbd : (("b" : String) == "d") = false := by decide
  have ncd : (("c" : String) == "d") = false := by decide
  have hsa : receitaDoProduto (linhasValidas dfAbc) "a" = 100 := by
    rw [hlv]; norm_num [receitaDoProduto, sumQ, nba, nca, nda]
  have hsb : receitaDoProduto (linhasValidas dfAbc) "b" = 50 := by
    rw [hlv]; norm_num [receitaDoProduto, sumQ, nab, ncb, ndb]
  have hsc : receitaDoProduto (linhasValidas dfAbc) "c" = 30 := by
    rw [hlv]; norm_num [receitaDoProduto, sumQ, nac, nbc, ndc]
  have hsd : receitaDoProduto (linhasValidas dfAbc) "d" = 20 := by
    rw [hlv]; norm_num [receitaDoProduto, sumQ, nad, nbd, ncd]
  have hranked : receita_por_produto (linhasValidas dfAbc) =
      [("a", 100), ("b", 50), ("c", 30), ("d", 20)] := by
    rw [receita_por_produto, hprods]
    simp only [List.map_cons, List.map_nil, hsa, hsb, hsc, hsd]
    have k1 : byReceitaDesc ("c", (30 : ℚ)) ("d", 20) = true := by decide
    have k2 : byReceitaDesc ("b", (50 : ℚ)) ("c", 30) = true := by decide
    have k3 : byReceitaDesc ("a", (100 : ℚ)) ("b", 50) = true := by decide
    simp [isort, insertLe, k1, k2, k3]
  obtain ⟨r, hok, _, _, hlen, hgetD⟩ := curva_abc_spec dfAbc hcols hne htot
  have hlen4 : r.curva_abc.length = 4 := by
    rw [hlen, hranked]
    rfl
  have hsum1 : sumQ ((([("a", (100:ℚ)), ("b", 50), ("c", 30), ("d", 20)]).map Prod.snd).take 1) = 100 := by
    norm_num [sumQ]
  have hsum2 : sumQ ((([("a", (100:ℚ)), ("b", 50), ("c", 30), ("d", 20)]).map Prod.snd).take 2) = 150 := by
    norm_num [sumQ]
  have hsum3 : sumQ ((([("a", (100:ℚ)), ("b", 50), ("c", 30), ("d", 20)]).map Prod.snd).take 3) = 180 := by
    norm_num [sumQ]
  have hsum4 : sumQ ((([("a", (100:ℚ)), ("b", 50), ("c", 30), ("d", 20)]).map Prod.snd).take 4) = 200 := by
    norm_num [sumQ]
  have h0 := hgetD 0 (by omega)
  have h1 := hgetD 1 (by omega)
  have h2 := hgetD 2 (by omega)
  have h3 := hgetD 3 (by omega)
  rw [hranked, htotal] at h0 h1 h2 h3
  rw [hsum1] at h0
  rw [hsum2] at h1
  rw [hsum3] at h2
  rw [hsum4] at h3
  simp only [List.getD_cons_zero, List.getD_cons_succ] at h0 h1 h2 h3
  have e0 : ((("a", (100:ℚ)).1, round2 ("a", (100:ℚ)).2,
      classifica_abc ((100:ℚ) / 200 * 100))) = ("a", (100:ℚ), "A") := by
    have : round2 (100 : ℚ) = 100 := round2_eq_of_intCast _ 100 (by norm_num)
    rw [show ((100:ℚ) / 200 * 100) = 50 by norm_num]
    simp [classifica_abc, this]
    norm_num
  have e1 : ((("b", (50:ℚ)).1, round2 ("b", (50:ℚ)).2,
      classifica_abc ((150:ℚ) / 200 * 100))) = ("b", (50:ℚ), "A") := by
    have : round2 (50 : ℚ) = 50 := round2_eq_of_intCast _ 50 (by norm_num)
    rw [show ((150:ℚ) / 200 * 100) = 75 by norm_num]
    simp [classifica_abc, this]
    norm_num
  have e2 : ((("c", (30:ℚ)).1, round2 ("c", (30:ℚ)).2,
      classifica_abc ((180:ℚ) / 200 * 100))) = ("c", (30:ℚ), "B") := by
    have : round2 (30 : ℚ) = 30 := round2_eq_of_intCast _ 30 (by norm_num)
    rw [show ((180:ℚ) / 200 * 100) = 90 by norm_num]
    simp [classifica_abc, this]
    norm_num
  have e3 : ((("d", (20:ℚ)).1, round2 ("d", (20:ℚ)).2,
      classifica_abc ((200:ℚ) / 200 * 100))) = ("d", (20:ℚ), "C") := by
    have : round2 (20 : ℚ) = 20 := round2_eq_of_intCast _ 20 (by norm_num)
    rw [show ((200:ℚ) / 200 * 100) = 100 by norm_num]
    simp [classifica_abc, this]
    norm_num
  rw [e0] at h0
  rw [e1] at h1
  rw [e2] at h2
  rw [e3] at h3
  exact ⟨hcols, hne, htot, r, hok,
    list_eq_of_len4 r.curva_abc ("", 0, "") _ _ _ _ hlen4 h0 h1 h2 h3⟩

/-- C8: whenever the reference file is absent, or the file holds no entry
for a row's product, the cleaned row gets category "Outros", margin
exactly 0.20, and profit round2(receita × 0.20). -/
theorem aplicar_categorias_margem_padrao (categorias : Option (List CatEntry))
    (rows : List FeatRow) (c : CleanRow)
    (hc : c ∈ (aplicar_categorias categorias rows).1)
    (hmiss : categorias = none ∨
      ∃ cats, categorias = some cats ∧ ∀ e ∈ cats, e.produto ≠ c.produto) :
    c.categoria = "Outros" ∧ c.margem = 20/100 ∧
      c.lucro = round2 (c.receita * (20/100)) := by
  rcases hmiss with rfl | ⟨cats, rfl, hnone⟩
  · simp only [aplicar_categorias] at hc
    rcases List.mem_map.mp hc with ⟨r, _, rfl⟩
    exact ⟨rfl, rfl, rfl⟩
  · simp only [aplicar_categorias] at hc
    rcases List.mem_map.mp hc with ⟨m, hm, rfl⟩
    rcases List.mem_flatMap.mp hm with ⟨r, _, hmem⟩
    rcases hfil : cats.filter (fun e => e.produto == r.produto) with _ | ⟨e, es⟩
    · rw [hfil] at hmem
      simp only [List.mem_singleton] at hmem
      subst hmem
      exact ⟨rfl, rfl, rfl⟩
    · rw [hfil] at hmem
      rcases List.mem_map.mp hmem with ⟨f, hf, rfl⟩
      have hfmem : f ∈ cats.filter (fun e => e.produto == r.produto) := by
        rw [hfil]; exact hf
      have hfprop := List.mem_filter.mp hfmem
      have hprod : f.produto = r.produto := by simpa using hfprop.2
      exact absurd (by simpa [mkClean] using hprod) (hnone f hfprop.1)

/-- A feature row for a product absent from the reference file. -/
def linhaCaneta : FeatRow := ⟨0, "caneta", 5, 2, 10, 1970, 1, 3, 1, 1⟩

/-- A reference table without an entry for "caneta". -/
def tabelaCaderno : List CatEntry := [⟨"caderno", some "Papelaria", some (3/10)⟩]

/-- C8 witness: with a reference file that lacks the product, the cleaned
row comes out with category "Outros", margin 0.20 and the 0.20 profit. -/
theorem aplicar_categorias_margem_padrao_witness :
    (mkClean linhaCaneta "Outros" (20/100) ∈
      (aplicar_categorias (some tabelaCaderno) [linhaCaneta]).1) ∧
    (∀ e ∈ tabelaCaderno, e.produto ≠ (mkClean linhaCaneta "Outros" (20/100)).produto) ∧
    ((mkClean linhaCaneta "Outros" (20/100)).categoria = "Outros" ∧
      (mkClean linhaCaneta "Outros" (20/100)).margem = 20/100 ∧
      (mkClean linhaCaneta "Outros" (20/100)).lucro =
        round2 ((mkClean linhaCaneta "Outros" (20/100)).receita * (20/100))) := by
  have hbeq : (("caderno" : String) == "caneta") = false := by decide
  have hmem : mkClean linhaCaneta "Outros" (20/100) ∈
      (aplicar_categorias (some tabelaCaderno) [linhaCaneta]).1 := by
    simp [aplicar_categorias, mergeCategorias, tabelaCaderno, linhaCaneta, hbeq]
  have hne : ∀ e ∈ tabelaCaderno,
      e.produto ≠ (mkClean linhaCaneta "Outros" (20/100)).produto := by
    intro e he
    simp only [tabelaCaderno, List.mem_singleton] at he
    subst he
    simp [mkClean, linhaCaneta]
  exact ⟨hmem, hne,
    aplicar_categorias_margem_padrao (some tabelaCaderno) [linhaCaneta] _ hmem
      (Or.inr ⟨tabelaCaderno, rfl, hne⟩)⟩

/-- C9 amended witness: "Mousepad Gamer RGB" contains "mousepad" and none
of the earlier keywords, so its margin is 0.50 (and 0.60 is unreachable). -/
theorem margem_mousepad_sombreada_witness :
    containsStr "mousepad" (lowerStr "Mousepad Gamer RGB") = true ∧
    (∀ k ∈ ["notebook", "monitor", "ssd", "hd", "memória", "memoria", "ram"],
      containsStr k (lowerStr "Mousepad Gamer RGB") = false) ∧
    (margem_produto "Mousepad Gamer RGB" = 50/100 ∧
      ∀ nome2 : String, margem_produto nome2 ≠ 60/100) :=
  ⟨by decide, by decide,
    margem_mousepad_sombreada "Mousepad Gamer RGB" (by decide) (by decide)⟩

/-- Rows created by the feature stage satisfy the revenue formula. -/
theorem criar_features_inv (rows : List ValidRow) :
    ∀ f ∈ criar_features_derivadas rows, f.receita = f.valor * (f.quantidade : ℚ) := by
  intro f hf
  rcases List.mem_map.mp hf with ⟨r, _, rfl⟩
  rfl

/-- Every merged row descends from an input row (the merge only adds the
two suggestion columns). -/
theorem mem_mergeCategorias (cats : List CatEntry) (rows : List FeatRow)
    (m : FeatRow × Option String × Option ℚ) (hm : m ∈ mergeCategorias cats rows) :
    m.1 ∈ rows := by
  rcases List.mem_flatMap.mp hm with ⟨r, hr, hmem⟩
  rcases hfil : cats.filter (fun e => e.produto == r.produto) with _ | ⟨e, es⟩
  · rw [hfil] at hmem
    simp only [List.mem_singleton] at hmem
    rw [hmem]
    exact hr
  · rw [hfil] at hmem
    rcases List.mem_map.mp hmem with ⟨f, _, rfl⟩
    exact hr

/-- Category enrichment preserves price, quantity and revenue, hence the
revenue formula. -/
theorem aplicar_categorias_inv (categorias : Option (List CatEntry))
    (rows : List FeatRow)
    (hrows : ∀ f ∈ rows, f.receita = f.valor * (f.quantidade : ℚ)) :
    ∀ c ∈ (aplicar_categorias categorias rows).1,
      c.receita = c.valor * (c.quantidade : ℚ) := by
  intro c hc
  rcases categorias with _ | cats
  · simp only [aplicar_categorias] at hc
    rcases List.mem_map.mp hc with ⟨r, hr, rfl⟩
    exact hrows r hr
  · simp only [aplicar_categorias] at hc
    rcases List.mem_map.mp hc with ⟨m, hm, rfl⟩
    exact hrows m.1 (mem_mergeCategorias cats rows m hm)

/-- C2: every row of a successfully cleaned dataset satisfies
receita = valor × quantidade exactly (no rounding is involved in the
revenue column itself). -/
theorem limpar_receita_invariante (categorias : Option (List CatEntry))
    (df : RawDF) (res : CleanResult) (h : limpar categorias df = .ok res) :
    ∀ c ∈ res.rows, c.receita = c.valor * (c.quantidade : ℚ) := by
  rcases hv : validar_colunas df with _ | faltando
  · simp only [limpar, hv] at h
    by_cases hz : df.rows.length = 0
    · rw [if_pos hz] at h
      exact absurd h (by simp)
    · rw [if_neg hz] at h
      injection h with h2
      rw [← h2]
      intro c hc
      have hc2 := (mem_isort _ c _).mp hc
      exact aplicar_categorias_inv categorias _ (criar_features_inv _) c hc2
  · simp only [limpar, hv] at h
    exact absurd h (by simp)

/-- The one-row raw frame fed to the C2 witness: the price cell is
missing, so the row is dropped and cleaning returns an empty dataset. -/
def dfBruto : RawDF :=
  ⟨["data", "produto", "valor", "quantidade"], [⟨.val 0, some "p", .missing, .val 1⟩]⟩

/-- C2 witness: cleaning the one-row frame succeeds (the row without a
price is filtered, utilization 0%), so the theorem applies to its output. -/
theorem limpar_receita_invariante_witness :
    limpar none dfBruto =
      .ok ⟨[], ⟨1, 0, 0, 1, 0, none, 0, 0⟩⟩ ∧
    ∀ c ∈ ([] : List CleanRow), c.receita = c.valor * (c.quantidade : ℚ) := by
  have hv : validar_colunas dfBruto = none := by decide
  have heq : limpar none dfBruto = .ok ⟨[], ⟨1, 0, 0, 1, 0, none, 0, 0⟩⟩ := by
    simp only [limpar, hv]
    norm_num [dfBruto, remover_duplicatas, dedupFirst, converter_tipos, coerce, isBad,
      remover_registros_invalidos, remover_outliers_extremos,
      criar_features_derivadas, aplicar_categorias, ordenar_dados, isort,
      round2_zero]
  exact ⟨heq, limpar_receita_invariante none dfBruto _ heq⟩

end SalesPipeline
